import Mathlib

/-!
Shallow embedding of `src/adv_alg_05.py`: a small order-management domain
persisted with SQLAlchemy and projected into pydantic transfer records.

Modelling conventions:
* Python `float` columns (prices, totals) are modelled as `ℚ` with exact
  arithmetic; `Integer` columns as `ℤ`; `String` columns as `String`;
  nullable columns and unset relationships as `Option`.
* `DateTime` values are modelled as `ℤ` (an abstract timestamp); the
  `isoformat()` rendering is modelled as `toString`.
* A Python `dict` produced by `to_dict`, and the JSON text produced by
  `model_dump_json`, are both modelled by the inductive `Json` below
  (an object is an association list of string keys to values).
-/

/-- JSON-like values: the common model for the dictionaries built by the
`to_dict` methods and for the structured text emitted by pydantic. -/
inductive Json where
  | null : Json
  | str (s : String) : Json
  | int (n : ℤ) : Json
  | num (q : ℚ) : Json
  | arr (xs : List Json) : Json
  | obj (kvs : List (String × Json)) : Json
deriving Repr

/-- Key lookup in a JSON object body (first match wins, like a Python dict
built from distinct literal keys). -/
def jLookup (kvs : List (String × Json)) (k : String) : Option Json :=
  match kvs with
  | [] => none
  | (k', v) :: rest => if k' = k then some v else jLookup rest k

/-- Model of `datetime.isoformat()` on the abstract timestamp. -/
def isoformat (t : ℤ) : String := toString t

/-- Row of the `supplier` table (class `Supplier`). -/
structure SupplierRow where
  id : ℤ
  name : String
  contact_person : Option String
  phone : Option String
  email : Option String
  address : Option String
  created_at : ℤ
  updated_at : ℤ
deriving DecidableEq, Repr

/-- Row of the `product` table (class `Product`), together with the
`supplier` relationship view (absent when the reference is unset). -/
structure ProductRow where
  id : ℤ
  name : String
  description : Option String
  price : ℚ
  quantity : ℤ
  supplier_id : ℤ
  supplier : Option SupplierRow
  created_at : ℤ
  updated_at : ℤ
deriving DecidableEq, Repr

/-- Row of the `orderitem` table (class `OrderItem`), with the `product`
relationship view. `price` is the unit price captured at order time. -/
structure OrderItemRow where
  id : ℤ
  order_id : ℤ
  product_id : ℤ
  quantity : ℤ
  price : ℚ
  product : Option ProductRow
  created_at : ℤ
  updated_at : ℤ
deriving DecidableEq, Repr

/-- Row of the `order` table (class `Order`), with the `items`
relationship view. -/
structure OrderRow where
  id : ℤ
  customer_name : String
  customer_phone : Option String
  customer_email : Option String
  status : String
  total_amount : ℚ
  items : List OrderItemRow
  created_at : ℤ
  updated_at : ℤ
deriving DecidableEq, Repr

/-- `Order.calculate_total`: stores `sum(item.price * item.quantity for
item in self.items)` into `total_amount` and returns that value. -/
def calculate_total (o : OrderRow) : OrderRow × ℚ :=
  let t := (o.items.map (fun item => item.price * (item.quantity : ℚ))).sum
  ({ o with total_amount := t }, t)

/-- Render an optional string the way Python serializes `None` vs a str. -/
def encOptStr : Option String → Json
  | none => Json.null
  | some s => Json.str s

/-- `Supplier.to_dict`. -/
def SupplierRow.to_dict (s : SupplierRow) : List (String × Json) :=
  [ ("id", Json.int s.id),
    ("name", Json.str s.name),
    ("contact_person", encOptStr s.contact_person),
    ("phone", encOptStr s.phone),
    ("email", encOptStr s.email),
    ("address", encOptStr s.address),
    ("created_at", Json.str (isoformat s.created_at)),
    ("updated_at", Json.str (isoformat s.updated_at)) ]

/-- `Product.to_dict`: includes `supplier_name`, which is
`self.supplier.name if self.supplier else None`. -/
def ProductRow.to_dict (p : ProductRow) : List (String × Json) :=
  [ ("id", Json.int p.id),
    ("name", Json.str p.name),
    ("description", encOptStr p.description),
    ("price", Json.num p.price),
    ("quantity", Json.int p.quantity),
    ("supplier_id", Json.int p.supplier_id),
    ("supplier_name", match p.supplier with
                      | some s => Json.str s.name
                      | none => Json.null),
    ("created_at", Json.str (isoformat p.created_at)),
    ("updated_at", Json.str (isoformat p.updated_at)) ]

/-- `OrderItem.to_dict`: includes `product_name`
(`self.product.name if self.product else None`) and the computed line
total `self.price * self.quantity`. -/
def OrderItemRow.to_dict (it : OrderItemRow) : List (String × Json) :=
  [ ("id", Json.int it.id),
    ("order_id", Json.int it.order_id),
    ("product_id", Json.int it.product_id),
    ("product_name", match it.product with
                     | some p => Json.str p.name
                     | none => Json.null),
    ("quantity", Json.int it.quantity),
    ("price", Json.num it.price),
    ("total", Json.num (it.price * (it.quantity : ℚ))),
    ("created_at", Json.str (isoformat it.created_at)),
    ("updated_at", Json.str (isoformat it.updated_at)) ]

/-- `Order.to_dict`. -/
def OrderRow.to_dict (o : OrderRow) : List (String × Json) :=
  [ ("id", Json.int o.id),
    ("customer_name", Json.str o.customer_name),
    ("customer_phone", encOptStr o.customer_phone),
    ("customer_email", encOptStr o.customer_email),
    ("status", Json.str o.status),
    ("total_amount", Json.num o.total_amount),
    ("created_at", Json.str (isoformat o.created_at)),
    ("updated_at", Json.str (isoformat o.updated_at)),
    ("items", Json.arr (o.items.map (fun it => Json.obj it.to_dict))) ]

/-! ## Connection/session manager (`DatabaseConnection.get_session`) -/

/-- Actions performed on a session by the `get_session` context manager,
in the order they happen. -/
inductive SessionAction where
  | commit : SessionAction
  | rollback : SessionAction
  | close : SessionAction
deriving DecidableEq, Repr

/-- `DatabaseConnection.get_session`: the body of the `with` block is a
computation that either returns a value or raises an exception
(`Except ε α`). The context manager runs the body; the `try` commits
after a normal return, the `except` rolls back and re-raises, and the
`finally` closes the session in every case. Returns the ordered trace of
session actions together with the outcome delivered to the caller. -/
def get_session {ε α : Type} (body : Except ε α) :
    List SessionAction × Except ε α :=
  match body with
  | Except.ok a => ([SessionAction.commit, SessionAction.close], Except.ok a)
  | Except.error e =>
      ([SessionAction.rollback, SessionAction.close], Except.error e)

/-! ## Database provisioning (`create_database`) -/

/-- Outcome of the administrative environment `create_database` talks to:
the `psycopg2.connect` call may raise, and otherwise the catalog query
reports whether database `synergy` already exists. -/
inductive AdminOutcome where
  | connectFail (msg : String) : AdminOutcome
  | dbExists : AdminOutcome
  | dbMissing : AdminOutcome
deriving DecidableEq, Repr

/-- The fallible body of `create_database`'s `try` block: connect, query
`pg_database`, and either create the database or report it present.
Returns the lines printed on success. -/
def provisionSteps (env : AdminOutcome) : Except String (List String) :=
  match env with
  | AdminOutcome.connectFail msg => Except.error msg
  | AdminOutcome.dbExists =>
      Except.ok ["База данных 'synergy' уже существует"]
  | AdminOutcome.dbMissing =>
      Except.ok ["База данных 'synergy' успешно создана"]

/-- The line printed by `create_database`'s `except` handler. -/
def provisionErrorLine (e : String) : String :=
  "Ошибка при создании базы данных: " ++ e

/-- `create_database`: runs the provisioning steps inside `try`/`except
Exception`; any exception is caught and logged, never re-raised, so the
result is always a normal return (`Except.ok`) carrying the printed log. -/
def create_database (env : AdminOutcome) : Except String (List String) :=
  match provisionSteps env with
  | Except.ok log => Except.ok log
  | Except.error e => Except.ok [provisionErrorLine e]

/-! ## `BaseTable.__init__`

An entity instance is modelled as the list of attribute assignments made
on it, looked up by name; the class declares a fixed set of attribute
names (`hasattr` succeeds exactly on those). -/

/-- Python `setattr` on the attribute map: replaces any previous binding
of the name. -/
def setattrA (attrs : List (String × Json)) (k : String) (v : Json) :
    List (String × Json) :=
  (k, v) :: attrs.filter (fun kv => kv.1 ≠ k)

/-- One iteration of the `BaseTable.__init__` loop: assign the keyword
only when `hasattr(self, key)` holds, i.e. when the name is among the
class's declared attribute names. -/
def initStep (known : List String) (attrs : List (String × Json))
    (kv : String × Json) : List (String × Json) :=
  if known.contains kv.1 then setattrA attrs kv.1 kv.2 else attrs

/-- `BaseTable.__init__(**kwargs)`: iterates over the keyword arguments
and assigns only those whose name already exists on the class
(`hasattr(self, key)`); every other keyword is silently skipped. Never
raises (it is a total function). -/
def baseInit (known : List String) (kwargs : List (String × Json)) :
    List (String × Json) :=
  kwargs.foldl (initStep known) []

/-! ## Store-level semantics of the declared constraints

The relational store enforces the `unique=True` constraint on
`Supplier.name`, the `ondelete="CASCADE"` foreign keys (`Product ->
Supplier`, `OrderItem -> Order`) and the plain (no-action) foreign key
`OrderItem -> Product`, exactly as declared on the columns and
relationships in `src/adv_alg_05.py`. -/

/-- Violation of a declared constraint, reported by the store. -/
inductive ConstraintViolation where
  | uniqueName (name : String) : ConstraintViolation
  | foreignKey : ConstraintViolation
deriving DecidableEq, Repr

/-- The four tables of the store. -/
structure DBState where
  suppliers : List SupplierRow
  products : List ProductRow
  orders : List OrderRow
  order_items : List OrderItemRow
deriving Repr

/-- Inserting a Supplier row: the `unique=True` declaration on
`Supplier.name` makes the insert fail (and the transaction leave the
table untouched) when a row with the same name already exists. -/
def insertSupplier (db : DBState) (s : SupplierRow) :
    Except ConstraintViolation DBState :=
  if db.suppliers.any (fun t => t.name = s.name) then
    Except.error (ConstraintViolation.uniqueName s.name)
  else
    Except.ok { db with suppliers := db.suppliers ++ [s] }

/-- The store contents after an attempted insert: an insert that failed
with a constraint violation leaves the store unchanged. -/
def storeAfterInsertSupplier (db : DBState) (s : SupplierRow) : DBState :=
  match insertSupplier db s with
  | Except.ok db' => db'
  | Except.error _ => db

/-- Deleting a Supplier: `cascade="all, delete-orphan"` on
`Supplier.products` (and `ondelete="CASCADE"` on `Product.supplier_id`)
deletes the supplier's products with it; but `OrderItem.product_id` has
no delete action, so the deletion fails when one of those products is
still referenced by an OrderItem. -/
def deleteSupplier (db : DBState) (sid : ℤ) :
    Except ConstraintViolation DBState :=
  if db.order_items.any (fun it =>
      db.products.any (fun p => p.supplier_id = sid ∧ p.id = it.product_id)) then
    Except.error ConstraintViolation.foreignKey
  else
    Except.ok
      { db with
        suppliers := db.suppliers.filter (fun t => t.id ≠ sid),
        products := db.products.filter (fun p => p.supplier_id ≠ sid) }

/-- Deleting an Order: `cascade="all, delete-orphan"` on `Order.items`
(and `ondelete="CASCADE"` on `OrderItem.order_id`) deletes the order's
items with it; nothing references an OrderItem, so this always
succeeds. -/
def deleteOrder (db : DBState) (oid : ℤ) : DBState :=
  { db with
    orders := db.orders.filter (fun o => o.id ≠ oid),
    order_items := db.order_items.filter (fun it => it.order_id ≠ oid) }

/-- Deleting a Product: `OrderItem.product_id` is a foreign key with no
delete action, so the deletion fails while any OrderItem references the
product; there is no cascade on `Product.order_items`. -/
def deleteProduct (db : DBState) (pid : ℤ) :
    Except ConstraintViolation DBState :=
  if db.order_items.any (fun it => it.product_id = pid) then
    Except.error ConstraintViolation.foreignKey
  else
    Except.ok { db with products := db.products.filter (fun p => p.id ≠ pid) }

/-! ## Order construction and item mutation

`Order(customer_name=..., ...)` assigns the passed fields via
`BaseTable.__init__`; the declared column defaults `status="created"` and
`total_amount=0.0` are applied when the row is written. Mutating the
`items` collection is plain list manipulation and touches no other
column. -/

/-- A freshly created (and persisted) Order row: passed fields plus the
declared column defaults `status="created"`, `total_amount=0.0`, and an
empty `items` collection. -/
def mkOrderRow (oid : ℤ) (name : String) (phone email : Option String)
    (now : ℤ) : OrderRow :=
  { id := oid, customer_name := name, customer_phone := phone,
    customer_email := email, status := "created", total_amount := 0,
    items := [], created_at := now, updated_at := now }

/-- Appending an OrderItem to `order.items` (as the demo's
`order.items.extend`). -/
def addItem (o : OrderRow) (it : OrderItemRow) : OrderRow :=
  { o with items := o.items ++ [it] }

/-- Removing an OrderItem from `order.items` by its id. -/
def removeItem (o : OrderRow) (iid : ℤ) : OrderRow :=
  { o with items := o.items.filter (fun it => it.id ≠ iid) }

/-- Changing the quantity of the OrderItem with the given id. -/
def setItemQuantity (o : OrderRow) (iid : ℤ) (q : ℤ) : OrderRow :=
  { o with
    items := o.items.map (fun it =>
      if it.id = iid then { it with quantity := q } else it) }

/-! ## Transfer representations (pydantic ODT classes) -/

/-- `OrderItemODT` (pydantic): optional fields default to `None`,
`quantity` defaults to 1. -/
structure OrderItemODT where
  id : Option ℤ
  product_id : ℤ
  product_name : Option String
  quantity : ℤ
  price : ℚ
  total : Option ℚ
  created_at : Option ℤ
  updated_at : Option ℤ
deriving DecidableEq, Repr

/-- `OrderODT` (pydantic): `status` defaults to `"created"`,
`total_amount` to 0.0, `items` to the empty list. -/
structure OrderODT where
  id : Option ℤ
  customer_name : String
  customer_phone : Option String
  customer_email : Option String
  status : String
  total_amount : ℚ
  items : List OrderItemODT
  created_at : Option ℤ
  updated_at : Option ℤ
deriving DecidableEq, Repr

/-- `OrderItemODT.model_validate(order_item)` with `from_attributes`:
each field is read from the attribute of the same name on the ORM
instance; a field whose attribute does not exist on `OrderItem` falls
back to its declared default. `OrderItem` has no `product_name` and no
`total` attribute, so both come out as the default `None`. -/
def OrderItemODT.model_validate (it : OrderItemRow) : OrderItemODT :=
  { id := some it.id, product_id := it.product_id, product_name := none,
    quantity := it.quantity, price := it.price, total := none,
    created_at := some it.created_at, updated_at := some it.updated_at }

/-- `OrderODT.model_validate(order)` with `from_attributes`: fields are
read from the ORM `Order`; the `items` relationship list is validated
element-wise into `OrderItemODT` records. -/
def OrderODT.model_validate (o : OrderRow) : OrderODT :=
  { id := some o.id, customer_name := o.customer_name,
    customer_phone := o.customer_phone, customer_email := o.customer_email,
    status := o.status, total_amount := o.total_amount,
    items := o.items.map OrderItemODT.model_validate,
    created_at := some o.created_at, updated_at := some o.updated_at }

/-! ## Serialization of the transfer representations
(`model_dump_json` and re-reading the structured text). -/

/-- Optional integer as JSON (`null` for `None`). -/
def encOptInt : Option ℤ → Json
  | none => Json.null
  | some n => Json.int n

/-- Optional number as JSON (`null` for `None`). -/
def encOptNum : Option ℚ → Json
  | none => Json.null
  | some q => Json.num q

/-- Read back a mandatory integer field. -/
def decInt : Json → Option ℤ
  | Json.int n => some n
  | _ => none

/-- Read back a mandatory string field. -/
def decStr : Json → Option String
  | Json.str s => some s
  | _ => none

/-- Read back a mandatory numeric field. -/
def decNum : Json → Option ℚ
  | Json.num q => some q
  | _ => none

/-- Read back an optional integer field. -/
def decOptInt : Json → Option (Option ℤ)
  | Json.null => some none
  | Json.int n => some (some n)
  | _ => none

/-- Read back an optional string field. -/
def decOptStr : Json → Option (Option String)
  | Json.null => some none
  | Json.str s => some (some s)
  | _ => none

/-- Read back an optional numeric field. -/
def decOptNum : Json → Option (Option ℚ)
  | Json.null => some none
  | Json.num q => some (some q)
  | _ => none

/-- `model_dump_json` on an `OrderItemODT`: every field is emitted under
its name (`None` as `null`). -/
def OrderItemODT.toJson (x : OrderItemODT) : Json :=
  Json.obj
    [ ("id", encOptInt x.id),
      ("product_id", Json.int x.product_id),
      ("product_name", encOptStr x.product_name),
      ("quantity", Json.int x.quantity),
      ("price", Json.num x.price),
      ("total", encOptNum x.total),
      ("created_at", encOptInt x.created_at),
      ("updated_at", encOptInt x.updated_at) ]

/-- Re-reading an `OrderItemODT` from the structured text (pydantic
validation of the JSON object). -/
def OrderItemODT.fromJson (j : Json) : Option OrderItemODT :=
  match j with
  | Json.obj kvs =>
      (jLookup kvs "id").bind fun j1 =>
      (decOptInt j1).bind fun i =>
      (jLookup kvs "product_id").bind fun j2 =>
      (decInt j2).bind fun pid =>
      (jLookup kvs "product_name").bind fun j3 =>
      (decOptStr j3).bind fun pname =>
      (jLookup kvs "quantity").bind fun j4 =>
      (decInt j4).bind fun q =>
      (jLookup kvs "price").bind fun j5 =>
      (decNum j5).bind fun pr =>
      (jLookup kvs "total").bind fun j6 =>
      (decOptNum j6).bind fun tot =>
      (jLookup kvs "created_at").bind fun j7 =>
      (decOptInt j7).bind fun ca =>
      (jLookup kvs "updated_at").bind fun j8 =>
      (decOptInt j8).bind fun ua =>
      some { id := i, product_id := pid, product_name := pname,
             quantity := q, price := pr, total := tot,
             created_at := ca, updated_at := ua }
  | _ => none

/-- `model_dump_json` on an `OrderODT`: every field under its name, the
item list as a JSON array. -/
def OrderODT.toJson (x : OrderODT) : Json :=
  Json.obj
    [ ("id", encOptInt x.id),
      ("customer_name", Json.str x.customer_name),
      ("customer_phone", encOptStr x.customer_phone),
      ("customer_email", encOptStr x.customer_email),
      ("status", Json.str x.status),
      ("total_amount", Json.num x.total_amount),
      ("items", Json.arr (x.items.map OrderItemODT.toJson)),
      ("created_at", encOptInt x.created_at),
      ("updated_at", encOptInt x.updated_at) ]

/-- Element-wise re-reading of item records: fails as soon as one
element fails to validate. -/
def decodeItemList : List Json → Option (List OrderItemODT)
  | [] => some []
  | j :: rest =>
      (OrderItemODT.fromJson j).bind fun x =>
      (decodeItemList rest).bind fun xs =>
      some (x :: xs)

/-- Re-reading the list of item records from the JSON array. -/
def decItems : Json → Option (List OrderItemODT)
  | Json.arr xs => decodeItemList xs
  | _ => none

/-- Re-reading an `OrderODT` from the structured text. -/
def OrderODT.fromJson (j : Json) : Option OrderODT :=
  match j with
  | Json.obj kvs =>
      (jLookup kvs "id").bind fun j1 =>
      (decOptInt j1).bind fun i =>
      (jLookup kvs "customer_name").bind fun j2 =>
      (decStr j2).bind fun cn =>
      (jLookup kvs "customer_phone").bind fun j3 =>
      (decOptStr j3).bind fun cp =>
      (jLookup kvs "customer_email").bind fun j4 =>
      (decOptStr j4).bind fun ce =>
      (jLookup kvs "status").bind fun j5 =>
      (decStr j5).bind fun st =>
      (jLookup kvs "total_amount").bind fun j6 =>
      (decNum j6).bind fun ta =>
      (jLookup kvs "items").bind fun j7 =>
      (decItems j7).bind fun its =>
      (jLookup kvs "created_at").bind fun j8 =>
      (decOptInt j8).bind fun ca =>
      (jLookup kvs "updated_at").bind fun j9 =>
      (decOptInt j9).bind fun ua =>
      some { id := i, customer_name := cn, customer_phone := cp,
             customer_email := ce, status := st, total_amount := ta,
             items := its, created_at := ca, updated_at := ua }
  | _ => none

/-! ## Helper lemmas -/

/-- Re-reading a serialized item record restores it exactly. -/
lemma orderItemODT_roundtrip (x : OrderItemODT) :
    OrderItemODT.fromJson x.toJson = some x := by
  rcases x with ⟨i, pid, pname, q, pr, tot, ca, ua⟩
  cases i <;> cases pname <;> cases tot <;> cases ca <;> cases ua <;> rfl

/-- Re-reading a serialized list of item records restores it exactly. -/
lemma decItems_roundtrip (l : List OrderItemODT) :
    decItems (Json.arr (l.map OrderItemODT.toJson)) = some l := by
  simp only [decItems]
  induction l with
  | nil => rfl
  | cons x xs ih =>
      simp only [List.map_cons, decodeItemList, orderItemODT_roundtrip,
        Option.bind_some] at ih ⊢
      simp [ih]

/-- Re-reading a serialized order record restores it exactly. -/
lemma orderODT_roundtrip (x : OrderODT) :
    OrderODT.fromJson x.toJson = some x := by
  rcases x with ⟨i, cn, cp, ce, st, ta, its, ca, ua⟩
  cases i <;> cases cp <;> cases ce <;> cases ca <;> cases ua <;>
    simp [OrderODT.fromJson, OrderODT.toJson, jLookup, decOptInt, decOptStr,
      decStr, decNum, encOptInt, encOptStr, decItems_roundtrip]

/-- A successful lookup names a pair actually present in the list. -/
lemma jLookup_eq_some_mem {l : List (String × Json)} {k : String} {v : Json}
    (h : jLookup l k = some v) : (k, v) ∈ l := by
  induction l with
  | nil => simp [jLookup] at h
  | cons kv rest ih =>
      obtain ⟨k', v'⟩ := kv
      by_cases hk : k' = k
      · subst hk
        simp [jLookup] at h
        subst h
        exact List.mem_cons_self _ _
      · simp [jLookup, hk] at h
        exact List.mem_cons_of_mem _ (ih h)

/-- Every attribute assigned by the `__init__` loop has a declared name. -/
lemma initStep_foldl_keys (known : List String)
    (kwargs : List (String × Json)) (acc : List (String × Json))
    (hacc : ∀ kv ∈ acc, kv.1 ∈ known) :
    ∀ kv ∈ kwargs.foldl (initStep known) acc, kv.1 ∈ known := by
  induction kwargs generalizing acc with
  | nil => exact hacc
  | cons kv rest ih =>
      refine ih _ ?_
      intro kv' hkv'
      simp only [initStep] at hkv'
      by_cases hc : known.contains kv.1
      · rw [if_pos hc] at hkv'
        simp only [setattrA, List.mem_cons] at hkv'
        rcases hkv' with h | h
        · subst h
          simpa using hc
        · exact hacc _ (List.mem_of_mem_filter h)
      · rw [if_neg hc] at hkv'
        exact hacc _ hkv'

/-- Setting an attribute makes its latest value the one that is read
back. -/
lemma jLookup_setattrA (attrs : List (String × Json)) (k : String)
    (v : Json) : jLookup (setattrA attrs k v) k = some v := by
  simp [setattrA, jLookup]

/-! ## Concrete sample rows (used to instantiate the theorems) -/

/-- A sample supplier, as in the demo flow. -/
def sampleSupplier : SupplierRow :=
  { id := 1, name := "TechSupplier Inc.", contact_person := some "Ivan",
    phone := none, email := none, address := none,
    created_at := 0, updated_at := 0 }

/-- A sample product owned by `sampleSupplier`. -/
def sampleProduct : ProductRow :=
  { id := 1, name := "Widget", description := none, price := 10,
    quantity := 5, supplier_id := 1, supplier := some sampleSupplier,
    created_at := 0, updated_at := 0 }

/-- A sample product whose `supplier` relationship is unset. -/
def sampleProductNoSup : ProductRow :=
  { id := 2, name := "Gadget", description := none, price := 7,
    quantity := 3, supplier_id := 1, supplier := none,
    created_at := 0, updated_at := 0 }

/-- A sample order item for two units of `sampleProduct`. -/
def sampleItem : OrderItemRow :=
  { id := 1, order_id := 1, product_id := 1, quantity := 2, price := 10,
    product := some sampleProduct, created_at := 0, updated_at := 0 }

/-- A sample order item whose `product` relationship is unset. -/
def sampleItemNoProd : OrderItemRow :=
  { id := 2, order_id := 1, product_id := 1, quantity := 1, price := 7,
    product := none, created_at := 0, updated_at := 0 }

/-- A sample order holding `sampleItem`. -/
def sampleOrder : OrderRow :=
  { id := 1, customer_name := "Jane", customer_phone := none,
    customer_email := none, status := "created", total_amount := 0,
    items := [sampleItem], created_at := 0, updated_at := 0 }

/-- A sample order with no items. -/
def sampleEmptyOrder : OrderRow :=
  { id := 2, customer_name := "Petr", customer_phone := none,
    customer_email := none, status := "created", total_amount := 5,
    items := [], created_at := 0, updated_at := 0 }

/-! ## Claim theorems -/

/-- Claim C1: `calculate_total` stores the sum over the Order's items of
`item.price * item.quantity` in `total_amount`, returns that very value,
and yields 0 for an Order with no items. -/
theorem C1_calculate_total (o : OrderRow) :
    (calculate_total o).1.total_amount
        = (o.items.map (fun item => item.price * (item.quantity : ℚ))).sum
    ∧ (calculate_total o).2
        = (o.items.map (fun item => item.price * (item.quantity : ℚ))).sum
    ∧ (calculate_total o).2 = (calculate_total o).1.total_amount
    ∧ (o.items = [] → (calculate_total o).2 = 0) := by
  refine ⟨rfl, rfl, rfl, ?_⟩
  intro h
  simp [calculate_total, h]

/-- Claim C1 witness: on the concrete sample order with one item at price
10 and quantity 2 the stored and returned total is 20, and on the empty
sample order the hypothesis of the last conjunct is discharged to get 0. -/
theorem C1_calculate_total_witness :
    (calculate_total sampleOrder).1.total_amount = 20
    ∧ (calculate_total sampleEmptyOrder).2 = 0 := by
  constructor
  · rw [(C1_calculate_total sampleOrder).1]
    norm_num [sampleOrder, sampleItem]
  · exact (C1_calculate_total sampleEmptyOrder).2.2.2 rfl

/-- Claim C2: `get_session` commits on a body that completes normally,
rolls back and re-raises the same exception on a body that raises, and
closes the session exactly once in both cases. -/
theorem C2_get_session {ε α : Type} (body : Except ε α) :
    (∀ a : α, body = Except.ok a →
        get_session body
          = ([SessionAction.commit, SessionAction.close], Except.ok a))
    ∧ (∀ e : ε, body = Except.error e →
        get_session body
          = ([SessionAction.rollback, SessionAction.close], Except.error e))
    ∧ (get_session body).1.count SessionAction.close = 1 := by
  refine ⟨?_, ?_, ?_⟩
  · intro a h
    subst h
    rfl
  · intro e h
    subst h
    rfl
  · cases body <;> rfl

/-- Claim C2 witness: a concrete succeeding body is committed then
closed; a concrete raising body is rolled back then closed with the same
exception re-raised. -/
theorem C2_get_session_witness :
    get_session (Except.ok (0 : ℤ))
      = ([SessionAction.commit, SessionAction.close],
         (Except.ok 0 : Except String ℤ))
    ∧ get_session (Except.error "boom")
      = ([SessionAction.rollback, SessionAction.close],
         (Except.error "boom" : Except String ℤ)) :=
  ⟨(C2_get_session (Except.ok (0 : ℤ))).1 0 rfl,
   (C2_get_session (Except.error "boom")).2.1 "boom" rfl⟩

/-- Claim C6: adding, removing, or changing an item leaves `total_amount`
exactly as it was, and a freshly created Order row carries the declared
default `total_amount = 0`. -/
theorem C6_total_amount_frame (o : OrderRow) (it : OrderItemRow)
    (iid q oid : ℤ) (name : String) (phone email : Option String)
    (now : ℤ) :
    (addItem o it).total_amount = o.total_amount
    ∧ (removeItem o iid).total_amount = o.total_amount
    ∧ (setItemQuantity o iid q).total_amount = o.total_amount
    ∧ (mkOrderRow oid name phone email now).total_amount = 0 :=
  ⟨rfl, rfl, rfl, rfl⟩

/-- Claim C7: `Product.to_dict` carries the owning supplier's name under
`supplier_name`, and `OrderItem.to_dict` carries the referenced product's
name under `product_name` and the line total `price * quantity` under
`total`. -/
theorem C7_to_dict_denormalized (p : ProductRow) (s : SupplierRow)
    (it : OrderItemRow) (pr : ProductRow)
    (hp : p.supplier = some s) (hi : it.product = some pr) :
    jLookup p.to_dict "supplier_name" = some (Json.str s.name)
    ∧ jLookup it.to_dict "product_name" = some (Json.str pr.name)
    ∧ jLookup it.to_dict "total"
        = some (Json.num (it.price * (it.quantity : ℚ))) := by
  refine ⟨?_, ?_, ?_⟩ <;>
    simp only [ProductRow.to_dict, OrderItemRow.to_dict, hp, hi] <;> rfl

/-- Claim C7 witness: on the concrete sample product and order item the
three denormalized entries are present with the expected values. -/
theorem C7_to_dict_denormalized_witness :
    jLookup sampleProduct.to_dict "supplier_name"
      = some (Json.str "TechSupplier Inc.")
    ∧ jLookup sampleItem.to_dict "product_name" = some (Json.str "Widget")
    ∧ jLookup sampleItem.to_dict "total" = some (Json.num 20) := by
  obtain ⟨h1, h2, h3⟩ :=
    C7_to_dict_denormalized sampleProduct sampleSupplier sampleItem
      sampleProduct rfl rfl
  refine ⟨h1, h2, ?_⟩
  rw [h3]
  norm_num [sampleItem]

/-- Claim C8: `create_database` returns normally for every environment
outcome; when the provisioning steps raise, the exception is caught and
only its log line is kept. -/
theorem C8_create_database_swallows (env : AdminOutcome) :
    (∃ log, create_database env = Except.ok log)
    ∧ (∀ e, provisionSteps env = Except.error e →
        create_database env = Except.ok [provisionErrorLine e]) := by
  cases env <;>
    simp [create_database, provisionSteps]

/-- Claim C8 witness: a concrete unreachable administrative connection is
caught and logged, and the operation still returns normally. -/
theorem C8_create_database_swallows_witness :
    create_database (AdminOutcome.connectFail "connection refused")
      = Except.ok [provisionErrorLine "connection refused"] :=
  (C8_create_database_swallows
      (AdminOutcome.connectFail "connection refused")).2
    "connection refused" rfl

/-- Claim C10: with the supplier relationship unset, `Product.to_dict`
yields `supplier_name = None` rather than raising; with the product
relationship unset, `OrderItem.to_dict` yields `product_name = None`
rather than raising (both are total functions). -/
theorem C10_to_dict_absent_relationship (p : ProductRow)
    (it : OrderItemRow) (hp : p.supplier = none)
    (hi : it.product = none) :
    jLookup p.to_dict "supplier_name" = some Json.null
    ∧ jLookup it.to_dict "product_name" = some Json.null := by
  constructor <;>
    simp only [ProductRow.to_dict, OrderItemRow.to_dict, hp, hi] <;> rfl

/-- Claim C10 witness: the concrete sample rows with unset relationships
serialize the denormalized names as `null`. -/
theorem C10_to_dict_absent_relationship_witness :
    jLookup sampleProductNoSup.to_dict "supplier_name" = some Json.null
    ∧ jLookup sampleItemNoProd.to_dict "product_name" = some Json.null :=
  C10_to_dict_absent_relationship sampleProductNoSup sampleItemNoProd
    rfl rfl

/-- A second supplier row with a fresh id but the same name as
`sampleSupplier`. -/
def dupSupplier : SupplierRow := { sampleSupplier with id := 2 }

/-- A store holding just `sampleSupplier`. -/
def supplierOnlyDB : DBState :=
  { suppliers := [sampleSupplier], products := [], orders := [],
    order_items := [] }

/-- Claim C4: inserting a Supplier whose name already exists fails with
the uniqueness violation, and the failed insert leaves the store
unchanged. -/
theorem C4_supplier_name_unique (db : DBState) (s : SupplierRow)
    (h : ∃ t ∈ db.suppliers, t.name = s.name) :
    insertSupplier db s
      = Except.error (ConstraintViolation.uniqueName s.name)
    ∧ storeAfterInsertSupplier db s = db := by
  have hb : (db.suppliers.any (fun t => t.name = s.name)) = true := by
    rcases h with ⟨t, ht, he⟩
    exact List.any_eq_true.mpr ⟨t, ht, by simp [he]⟩
  constructor
  · simp [insertSupplier, hb]
  · simp [storeAfterInsertSupplier, insertSupplier, hb]

/-- Claim C4 witness: inserting a second supplier named
`"TechSupplier Inc."` into the concrete one-supplier store fails and
leaves the store as it was. -/
theorem C4_supplier_name_unique_witness :
    insertSupplier supplierOnlyDB dupSupplier
      = Except.error (ConstraintViolation.uniqueName "TechSupplier Inc.")
    ∧ storeAfterInsertSupplier supplierOnlyDB dupSupplier
      = supplierOnlyDB :=
  C4_supplier_name_unique supplierOnlyDB dupSupplier
    ⟨sampleSupplier, by simp [supplierOnlyDB], rfl⟩

/-- A second supplier unrelated to `sampleSupplier`. -/
def otherSupplier : SupplierRow :=
  { id := 2, name := "OtherSupplier", contact_person := none,
    phone := none, email := none, address := none,
    created_at := 0, updated_at := 0 }

/-- A product owned by `otherSupplier`. -/
def otherProduct : ProductRow :=
  { id := 2, name := "Cable", description := none, price := 7,
    quantity := 3, supplier_id := 2, supplier := some otherSupplier,
    created_at := 0, updated_at := 0 }

/-- An order item referencing `otherProduct`. -/
def refItem : OrderItemRow :=
  { id := 3, order_id := 1, product_id := 2, quantity := 1, price := 7,
    product := some otherProduct, created_at := 0, updated_at := 0 }

/-- A store where supplier 1 has no products, product 2 belongs to
supplier 2, and an order item references product 2. -/
def cascadeDB : DBState :=
  { suppliers := [sampleSupplier, otherSupplier],
    products := [otherProduct], orders := [],
    order_items := [refItem] }

/-- Claim C5: deleting a Supplier cascades to its Products (when none of
them is still referenced), deleting an Order cascades to its OrderItems,
and deleting a Product that some OrderItem references fails instead of
cascading. -/
theorem C5_delete_cascades (db : DBState) (sid pid : ℤ)
    (h1 : ∀ it ∈ db.order_items, ∀ p ∈ db.products,
        p.supplier_id = sid → p.id ≠ it.product_id)
    (h2 : ∃ it ∈ db.order_items, it.product_id = pid) :
    (∃ db', deleteSupplier db sid = Except.ok db'
        ∧ ∀ p ∈ db'.products, p.supplier_id ≠ sid)
    ∧ (∀ oid : ℤ, ∀ it ∈ (deleteOrder db oid).order_items,
        it.order_id ≠ oid)
    ∧ deleteProduct db pid
        = Except.error ConstraintViolation.foreignKey := by
  have hguard : ¬ ((db.order_items.any (fun it =>
      db.products.any (fun p =>
        p.supplier_id = sid ∧ p.id = it.product_id))) = true) := by
    intro hg
    rcases List.any_eq_true.mp hg with ⟨it, hit, hinner⟩
    rcases List.any_eq_true.mp hinner with ⟨p, hp, hpp⟩
    rcases of_decide_eq_true hpp with ⟨hsid, hid⟩
    exact h1 it hit p hp hsid hid
  refine ⟨⟨{ db with
        suppliers := db.suppliers.filter (fun t => t.id ≠ sid),
        products := db.products.filter (fun p => p.supplier_id ≠ sid) },
      ?_, ?_⟩, ?_, ?_⟩
  · unfold deleteSupplier
    rw [if_neg hguard]
  · intro p hp
    simp only [List.mem_filter, decide_eq_true_eq] at hp
    exact hp.2
  · intro oid it hit
    simp only [deleteOrder, List.mem_filter, decide_eq_true_eq] at hit
    exact hit.2
  · have hb : (db.order_items.any (fun it => it.product_id = pid))
        = true := by
      rcases h2 with ⟨it, hit, he⟩
      exact List.any_eq_true.mpr ⟨it, hit, by simp [he]⟩
    simp [deleteProduct, hb]

/-- Claim C5 witness: on the concrete store, deleting supplier 1
succeeds and leaves no product of supplier 1, order deletion removes the
order's items, and deleting the referenced product 2 fails. -/
theorem C5_delete_cascades_witness :
    (∃ db', deleteSupplier cascadeDB 1 = Except.ok db'
        ∧ ∀ p ∈ db'.products, p.supplier_id ≠ 1)
    ∧ (∀ oid : ℤ, ∀ it ∈ (deleteOrder cascadeDB oid).order_items,
        it.order_id ≠ oid)
    ∧ deleteProduct cascadeDB 2
        = Except.error ConstraintViolation.foreignKey :=
  C5_delete_cascades cascadeDB 1 2 (by decide)
    ⟨refItem, by simp [cascadeDB], rfl⟩

/-- Claim C9: the shared constructor assigns only declared attribute
names: every assigned attribute is declared, an undeclared keyword
leaves no trace (its lookup is `none`), and a declared keyword is
assigned with its (latest) value; the loop never raises. -/
theorem C9_baseInit_filters (known : List String)
    (kwargs : List (String × Json)) (u k : String) (v : Json)
    (hu : u ∉ known) (hk : k ∈ known) :
    (∀ kv ∈ baseInit known kwargs, kv.1 ∈ known)
    ∧ jLookup (baseInit known kwargs) u = none
    ∧ jLookup (baseInit known (kwargs ++ [(k, v)])) k = some v := by
  have keys := initStep_foldl_keys known kwargs [] (by simp)
  refine ⟨keys, ?_, ?_⟩
  · cases hl : jLookup (baseInit known kwargs) u with
    | none => rfl
    | some w => exact absurd (keys _ (jLookup_eq_some_mem hl)) hu
  · have hsplit : baseInit known (kwargs ++ [(k, v)])
        = initStep known (baseInit known kwargs) (k, v) := by
      simp [baseInit, List.foldl_append]
    rw [hsplit]
    simp only [initStep]
    rw [if_pos (by simpa using hk)]
    exact jLookup_setattrA _ _ _

/-- Claim C9 witness: with declared names `name` and `price`, the
unknown keyword `bogus` is silently dropped (no attribute appears for
it) while the declared keyword `price` is assigned. -/
theorem C9_baseInit_filters_witness :
    jLookup (baseInit ["name", "price"]
        [("name", Json.str "Widget"), ("bogus", Json.int 1)]) "bogus"
      = none
    ∧ jLookup (baseInit ["name", "price"]
        ([("name", Json.str "Widget")] ++ [("price", Json.num 10)]))
        "price"
      = some (Json.num 10) := by
  obtain ⟨-, h2, -⟩ := C9_baseInit_filters ["name", "price"]
    [("name", Json.str "Widget"), ("bogus", Json.int 1)]
    "bogus" "price" (Json.num 10) (by decide) (by decide)
  obtain ⟨-, -, h3⟩ := C9_baseInit_filters ["name", "price"]
    [("name", Json.str "Widget")]
    "bogus" "price" (Json.num 10) (by decide) (by decide)
  exact ⟨h2, h3⟩

/-- Claim C3 counterexample: on the concrete persisted order whose item
has price 10 and quantity 2, the validated projection's item record does
not carry `total = price * quantity`; the `total` field comes out as
`None` (the ORM `OrderItem` has no `total` attribute, so pydantic falls
back to the declared default). -/
theorem C3_counterexample :
    (OrderODT.model_validate sampleOrder).items.map OrderItemODT.total
      = [none]
    ∧ (OrderODT.model_validate sampleOrder).items.map OrderItemODT.total
      ≠ [some (sampleItem.price * (sampleItem.quantity : ℚ))] := by
  refine ⟨rfl, ?_⟩
  intro h
  rw [show (OrderODT.model_validate sampleOrder).items.map
        OrderItemODT.total = [none] from rfl] at h
  simp at h

/-- Claim C3 (amended): projecting a persisted Order with N items yields
exactly N item records; each item record keeps the item's price and
quantity but has `total = None` and `product_name = None` (the ORM
`OrderItem` has no attributes of those names, so the declared defaults
apply); and serializing the representation then re-reading the
structured text preserves all field values. -/
theorem C3_projection_roundtrip (o : OrderRow) :
    (OrderODT.model_validate o).items.length = o.items.length
    ∧ (∀ it ∈ o.items,
        (OrderItemODT.model_validate it).price = it.price
        ∧ (OrderItemODT.model_validate it).quantity = it.quantity
        ∧ (OrderItemODT.model_validate it).total = none
        ∧ (OrderItemODT.model_validate it).product_name = none)
    ∧ (OrderODT.model_validate o).items
        = o.items.map OrderItemODT.model_validate
    ∧ OrderODT.fromJson (OrderODT.model_validate o).toJson
        = some (OrderODT.model_validate o) := by
  refine ⟨?_, ?_, rfl, orderODT_roundtrip _⟩
  · simp [OrderODT.model_validate]
  · intro it hit
    exact ⟨rfl, rfl, rfl, rfl⟩

/-- Claim C3 (amended) witness: the concrete one-item order projects to
exactly one item record whose `total` is `None`, and its serialization
re-reads to the same record. -/
theorem C3_projection_roundtrip_witness :
    (OrderODT.model_validate sampleOrder).items.length = 1
    ∧ (OrderItemODT.model_validate sampleItem).total = none
    ∧ OrderODT.fromJson (OrderODT.model_validate sampleOrder).toJson
        = some (OrderODT.model_validate sampleOrder) := by
  obtain ⟨h1, h2, -, h4⟩ := C3_projection_roundtrip sampleOrder
  refine ⟨by rw [h1]; rfl, ?_, h4⟩
  exact (h2 sampleItem (by simp [sampleOrder])).2.2.1
